import Mathlib

/-!
Verification of the AX-VideoCapture capture-session core.

Shallow embedding of `src/AX-VideoCapture.h` and
`src/msw/AX-VideoCaptureMSWImpl.h` (header plus implementation):
the device registry, the double-buffered capture session state machine,
the camera-control bridge, the shared-texture frame lease and the
device-change diff.  Pure data and state transformers are translated
directly from the C++ source; the opaque Media Foundation / DXGI backend
is modelled by explicit success flags and value parameters.
-/

namespace AXVideo

/-- `Capture::DeviceDescriptor` from AX-VideoCapture.h: a name and a
stable platform-assigned id. -/
structure DeviceDescriptor where
  Name : String
  ID : String
deriving DecidableEq, Repr

/-- `DeviceDescriptor::operator==`: `Name == other.Name && ID == other.ID`. -/
def ddEqB (a b : DeviceDescriptor) : Bool :=
  a.Name == b.Name && a.ID == b.ID

/-- `DeviceDescriptor::operator<` exactly as written in the source:
`Name < other.Name && ID < other.ID` (a conjunction of both component
comparisons, not a lexicographic comparison). -/
def ddLtB (a b : DeviceDescriptor) : Bool :=
  decide (a.Name < b.Name) && decide (a.ID < b.ID)

/-- The ordering the specification describes: `(name, id)` compared
lexicographically.  Stated from the spec's words, for comparison with
`ddLtB` which is translated from the source. -/
def ddLexLtSpec (a b : DeviceDescriptor) : Prop :=
  a.Name < b.Name ∨ (a.Name = b.Name ∧ a.ID < b.ID)

theorem ddEqB_iff (a b : DeviceDescriptor) : ddEqB a b = true ↔ a = b := by
  cases a; cases b
  simp [ddEqB]

theorem ddLtB_iff (a b : DeviceDescriptor) :
    ddLtB a b = true ↔ a.Name < b.Name ∧ a.ID < b.ID := by
  simp [ddLtB]

/-- Claim C8, counterexample.  The claim states that `operator<` orders
descriptors lexicographically by `(Name, ID)` and is a strict total
order consistent with equality.  At `d1 = ("a","b")`, `d2 = ("b","a")`
the source's `operator<` (`Name < other.Name && ID < other.ID`) returns
false in both directions although the pair is lexicographically ordered
and the descriptors are unequal: the order is not lexicographic and not
total. -/
theorem descriptor_order_counterexample :
    ddLtB ⟨"a", "b"⟩ ⟨"b", "a"⟩ = false
  ∧ ddLexLtSpec ⟨"a", "b"⟩ ⟨"b", "a"⟩
  ∧ ddLtB ⟨"b", "a"⟩ ⟨"a", "b"⟩ = false
  ∧ ddEqB ⟨"a", "b"⟩ ⟨"b", "a"⟩ = false := by
  have hab : (("a" : String) < "b") := by
    rw [String.lt_iff_toList_lt]; decide
  have hba : ¬ (("b" : String) < "a") := by
    rw [String.lt_iff_toList_lt]; decide
  exact ⟨by simp [ddLtB, hba], Or.inl hab, by simp [ddLtB, hba], by decide⟩

/-- Claim C8, amended.  `DeviceDescriptor` equality is by the pair
`(Name, ID)`; the ordering holds iff both components are strictly less
componentwise (`d1.Name < d2.Name` and `d1.ID < d2.ID`).  That relation
is irreflexive and asymmetric, hence a strict partial order, but it is
not lexicographic and not total. -/
theorem descriptor_eq_and_order (d1 d2 : DeviceDescriptor) :
    (ddEqB d1 d2 = true ↔ d1.Name = d2.Name ∧ d1.ID = d2.ID)
  ∧ (ddLtB d1 d2 = true ↔ d1.Name < d2.Name ∧ d1.ID < d2.ID)
  ∧ ddLtB d1 d1 = false
  ∧ (ddLtB d1 d2 && ddLtB d2 d1) = false := by
  refine ⟨by simp [ddEqB], ddLtB_iff d1 d2, ?_, ?_⟩
  · rw [Bool.eq_false_iff]
    intro h
    exact absurd ((ddLtB_iff d1 d1).1 h).1 (lt_irrefl _)
  · rw [Bool.eq_false_iff]
    intro h
    rw [Bool.and_eq_true] at h
    rcases h with ⟨h1, h2⟩
    exact absurd (lt_trans ((ddLtB_iff d1 d2).1 h1).1 ((ddLtB_iff d2 d1).1 h2).1)
      (lt_irrefl _)

/-- `Capture::Rotation` from AX-VideoCapture.h. -/
inductive Rotation
  | R0
  | R90
  | R180
  | R270
deriving DecidableEq, Repr

/-- `Capture::Format` from AX-VideoCapture.h: target size, frame-rate
ratio, device descriptor, hardware-acceleration flag, rotation and
auto-start flag, with the member initializers as defaults. -/
structure Format where
  sizeX : Nat
  sizeY : Nat
  fpsN : Int
  fpsD : Int
  device : DeviceDescriptor
  hardwareAccelerated : Bool
  rotation : Rotation
  autoStart : Bool
deriving DecidableEq, Repr

/-- The member-initializer defaults of `Capture::Format`:
size 640x480, 30/1 fps, hardware accelerated, no rotation, auto-start. -/
def defaultFormat : Format :=
  { sizeX := 640, sizeY := 480, fpsN := 30, fpsD := 1
    device := { Name := "", ID := "" }
    hardwareAccelerated := true, rotation := Rotation.R0, autoStart := true }

/-- A `ci::Surface8u` as used by the software path: width, height, row
stride in bytes and the allocated pixel bytes. -/
structure Surface where
  width : Nat
  height : Nat
  rowBytes : Nat
  data : List Nat
deriving DecidableEq, Repr

/-- `Surface::create ( size.x, size.y, size.x * 4, BGRA )` as called in
`OnSample`: a fresh zeroed surface of the configured Format size. -/
def surfaceCreate (fmt : Format) : Surface :=
  { width := fmt.sizeX, height := fmt.sizeY, rowBytes := fmt.sizeX * 4
    data := List.replicate (fmt.sizeX * 4 * fmt.sizeY) 0 }

/-- `surface->getRowBytes ( ) * surface->getHeight ( )`. -/
def allocatedSurfaceBytes (s : Surface) : Nat :=
  s.rowBytes * s.height

/-- The reallocation check of the software branch of `OnSample`:
`if ( !surface || allocatedSurfaceBytes < bmpLength )` a fresh surface
of the configured Format size is created, otherwise the existing
surface is kept. -/
def reallocForSample (fmt : Format) (slot : Option Surface) (bmpLength : Nat) :
    Surface :=
  match slot with
  | none => surfaceCreate fmt
  | some s => if allocatedSurfaceBytes s < bmpLength then surfaceCreate fmt else s

/-- `std::memcpy ( surface->getData ( ), bmpBuffer, bmpLength )`: the
incoming bytes overwrite the head of the destination allocation. -/
def memcpyBytes (dst src : List Nat) : List Nat :=
  src ++ dst.drop src.length

/-- `AX::Video::SharedTexture`: the GPU buffer pair with its share
handle validity, lock state and texture content.  `glTexture` is the
render-side handle (`none` models a null handle), `content` abstracts
the capture-side pixel contents written by `CopyResource`. -/
structure SharedTex where
  glTexture : Option Nat
  content : Nat
  isValid : Bool
  isLocked : Bool
deriving DecidableEq, Repr

/-- The state of `Capture::Impl`: the format, the flags, the two CPU
surface slots, the two shared-texture slots and the read/write indices,
with the member initializers of the source
(`_hasNewFrame{false}`, `_isStarted{false}`, `_isInitialized{false}`,
`_readIndex{0}`, `_writeIndex{1}`). -/
structure ImplState where
  format : Format
  hasNewFrame : Bool
  isValid : Bool
  isStarted : Bool
  isInitialized : Bool
  surface0 : Option Surface
  surface1 : Option Surface
  tex0 : Option SharedTex
  tex1 : Option SharedTex
  readIndex : Nat
  writeIndex : Nat
deriving DecidableEq, Repr

/-- The member-initialized state of a freshly constructed `Impl`, with
the construction outcome (shared textures allocated for the hardware
path, validity) filled in by the constructor. -/
def mkInitState (fmt : Format) (t0 t1 : Option SharedTex) (valid : Bool) :
    ImplState :=
  { format := fmt, hasNewFrame := false, isValid := valid
    isStarted := false, isInitialized := false
    surface0 := none, surface1 := none, tex0 := t0, tex1 := t1
    readIndex := 0, writeIndex := 1 }

/-- `_surfaces[i]`. -/
def surfAt (s : ImplState) (i : Nat) : Option Surface :=
  if i = 0 then s.surface0 else s.surface1

/-- `_sharedTextures[i]`. -/
def texAt (s : ImplState) (i : Nat) : Option SharedTex :=
  if i = 0 then s.tex0 else s.tex1

/-- Write `_surfaces[i]`. -/
def setSurfAt (s : ImplState) (i : Nat) (v : Option Surface) : ImplState :=
  if i = 0 then { s with surface0 := v } else { s with surface1 := v }

/-- Write `_sharedTextures[i]`. -/
def setTexAt (s : ImplState) (i : Nat) (v : Option SharedTex) : ImplState :=
  if i = 0 then { s with tex0 := v } else { s with tex1 := v }

/-- `std::swap ( _readIndex, _writeIndex )`. -/
def swapIndices (s : ImplState) : ImplState :=
  { s with readIndex := s.writeIndex, writeIndex := s.readIndex }

/-- `CheckNewFrame ( )`: `_hasNewFrame.load ( )`. -/
def CheckNewFrame (s : ImplState) : Bool :=
  s.hasNewFrame

/-- `IsStarted ( )`: `_isStarted.load ( )`. -/
def IsStarted (s : ImplState) : Bool :=
  s.isStarted

/-- `IsStopped ( )`: `!IsStarted ( )`. -/
def IsStopped (s : ImplState) : Bool :=
  !IsStarted s

/-- A command issued to the capture backend
(`_captureEngine->StartPreview ( )` / `StopPreview ( )`). -/
inductive Cmd
  | startPreview
  | stopPreview
deriving DecidableEq, Repr

/-- A consumer notification emitted (via `dispatchAsync`) by the
session: the `OnInitialize` / `OnStart` / `OnStop` / `OnDeviceLost` /
`OnError` signals of the facade. -/
inductive Notif
  | initialized
  | started
  | stopped
  | deviceLost
  | errored (status : Int)
deriving DecidableEq, Repr

/-- One delivered `IMFSample`, with the backend call outcomes `OnSample`
branches on: `GetBufferByIndex` success, the hardware-path
`buffer.As ( IMFDXGIBuffer )` and `GetResource` successes and the copied
texture content, the software-path `ConvertToContiguousBuffer` and
`Lock` successes and the locked bytes. -/
structure SampleInput where
  bufferOk : Bool
  extractOk : Bool
  getResourceOk : Bool
  texContent : Nat
  convertOk : Bool
  lockOk : Bool
  bytes : List Nat
deriving DecidableEq, Repr

/-- `Capture::Impl::OnSample`, translated branch for branch.  The
hardware path copies the GPU buffer into the write-slot texture and
swaps the indices; extraction failure is a skipped frame.  The software
path runs the reallocation check, copies the bytes into the write-slot
surface, unlocks and swaps.  No branch touches `_hasNewFrame`. -/
def OnSample (s : ImplState) (smp : SampleInput) : ImplState :=
  if smp.bufferOk = false then s
  else if s.format.hardwareAccelerated then
    if smp.extractOk then
      if smp.getResourceOk then
        swapIndices (setTexAt s s.writeIndex
          ((texAt s s.writeIndex).map (fun t => { t with content := smp.texContent })))
      else s
    else s
  else
    if smp.convertOk = false then s
    else if smp.lockOk = false then s
    else
      let surf := reallocForSample s.format (surfAt s s.writeIndex) smp.bytes.length
      swapIndices (setSurfAt s s.writeIndex
        (some { surf with data := memcpyBytes surf.data smp.bytes }))

/-- The condition under which `OnSample` reaches the index swap (all
backend calls of the taken branch succeeded). -/
def sampleAccepted (s : ImplState) (smp : SampleInput) : Bool :=
  smp.bufferOk &&
    (if s.format.hardwareAccelerated then smp.extractOk && smp.getResourceOk
     else smp.convertOk && smp.lockOk)

/-- `Capture::Impl::GetSurface`: stores false to `_hasNewFrame` and
returns `_surfaces[_readIndex]`. -/
def GetSurfaceOp (s : ImplState) : ImplState × Option Surface :=
  ({ s with hasNewFrame := false }, surfAt s s.readIndex)

/-- `SharedTexture::Lock ( )`: `_isLocked` becomes the result of the
interop lock call. -/
def sharedTexLock (t : SharedTex) (lockOk : Bool) : SharedTex :=
  { t with isLocked := lockOk }

/-- `DXGIRenderPathFrameLease` immediately after construction: it holds
the slot's texture pointer (possibly null) and has called `Lock ( )` on
it when non-null. -/
structure DXGIRenderPathFrameLease where
  texture : Option SharedTex
deriving DecidableEq, Repr

/-- The `DXGIRenderPathFrameLease` constructor: take the slot pointer
and `if ( _texture ) _texture->Lock ( )`. -/
def mkFrameLease (slot : Option SharedTex) (lockOk : Bool) :
    DXGIRenderPathFrameLease :=
  match slot with
  | none => { texture := none }
  | some t => { texture := some (sharedTexLock t lockOk) }

/-- `FrameLease::ToTexture`: `_texture ? _texture->GLTextureHandle ( ) : nullptr`. -/
def leaseToTexture (l : DXGIRenderPathFrameLease) : Option Nat :=
  match l.texture with
  | none => none
  | some t => t.glTexture

/-- `DXGIRenderPathFrameLease::IsValid`: `ToTexture ( ) != nullptr`. -/
def leaseIsValid (l : DXGIRenderPathFrameLease) : Bool :=
  (leaseToTexture l).isSome

/-- The `DXGIRenderPathFrameLease` destructor:
`if ( _texture && _texture->IsLocked ( ) ) _texture->Unlock ( )`.
Returns the texture after release and whether the unlock interop call
was invoked; `unlockOk` is the result of the call when made. -/
def releaseFrameLease (l : DXGIRenderPathFrameLease) (unlockOk : Bool) :
    Option SharedTex × Bool :=
  match l.texture with
  | none => (none, false)
  | some t =>
    if t.isLocked then
      (some (if unlockOk then { t with isLocked := false } else t), true)
    else (some t, false)

/-- `Capture::Impl::GetTexture`: stores false to `_hasNewFrame` and
returns a `DXGIRenderPathFrameLease` over `_sharedTextures[_readIndex]`;
the lease's `Lock ( )` mutates the slot's texture object. -/
def GetTextureOp (s : ImplState) (lockOk : Bool) :
    ImplState × DXGIRenderPathFrameLease :=
  let slot := texAt s s.readIndex
  (setTexAt { s with hasNewFrame := false } s.readIndex
      (slot.map (fun t => sharedTexLock t lockOk)),
    mkFrameLease slot lockOk)

/-- A lease release seen as a session-state step: the unlock of the
texture object the lease points at (when the unlock call succeeds). -/
def unlockTexAt (s : ImplState) (i : Nat) : ImplState :=
  setTexAt s i ((texAt s i).map (fun t => { t with isLocked := false }))

/-- `Capture::Impl::Start`: returns unless `_isInitialized`, returns if
already started, otherwise stores true and issues `StartPreview`. -/
def Start (s : ImplState) : ImplState × List Cmd :=
  if s.isInitialized = false then (s, [])
  else if IsStarted s then (s, [])
  else ({ s with isStarted := true }, [Cmd.startPreview])

/-- `Capture::Impl::Stop`: returns if `IsStopped ( )`, otherwise stores
false and issues `StopPreview`. -/
def Stop (s : ImplState) : ImplState × List Cmd :=
  if IsStopped s then (s, [])
  else ({ s with isStarted := false }, [Cmd.stopPreview])

/-- `MF_E_VIDEO_RECORDING_DEVICE_INVALIDATED`, the HRESULT
`Capture::Impl::OnEvent` matches for the device-lost transition. -/
def kDeviceInvalidatedStatus : Int :=
  0xC00DABE6 - 0x100000000

/-- One `IMFMediaEvent` of extended type, as branched on by `OnEvent`:
engine initialized, preview started or stopped, an error carrying an
HRESULT status, or an unhandled extended type. -/
inductive MediaEvent
  | engineInitialized
  | previewStarted
  | previewStopped
  | errorEvent (status : Int)
  | otherEvent
deriving DecidableEq, Repr

/-- The outcome of an `OnEvent` call: the state after the handler (and
its dispatched lambdas), the notifications it scheduled on the main
queue and the backend commands it issued. -/
structure EventOutcome where
  state : ImplState
  notifs : List Notif
  cmds : List Cmd
deriving DecidableEq, Repr

/-- `Capture::Impl::OnEvent`, translated branch for branch.  The
initialized branch configures the stream, latches `_isInitialized`,
schedules `OnInitialize` and calls `Start ( )` when the format
auto-starts.  The error branch with the device-invalidated status marks
the session uninitialized and not started and schedules `OnDeviceLost`
without calling `Stop ( )`; any other status schedules `OnError`. -/
def OnEvent (s : ImplState) (e : MediaEvent) : EventOutcome :=
  match e with
  | MediaEvent.engineInitialized =>
    if s.format.autoStart then
      { state := (Start { s with isInitialized := true }).1
        notifs := [Notif.initialized]
        cmds := (Start { s with isInitialized := true }).2 }
    else
      { state := { s with isInitialized := true }
        notifs := [Notif.initialized], cmds := [] }
  | MediaEvent.previewStarted =>
    { state := s, notifs := [Notif.started], cmds := [] }
  | MediaEvent.previewStopped =>
    { state := s, notifs := [Notif.stopped], cmds := [] }
  | MediaEvent.errorEvent status =>
    if status = kDeviceInvalidatedStatus then
      { state := { s with isInitialized := false, isStarted := false }
        notifs := [Notif.deviceLost], cmds := [] }
    else
      { state := s, notifs := [Notif.errored status], cmds := [] }
  | MediaEvent.otherEvent =>
    { state := s, notifs := [], cmds := [] }

/-- A device hot-plug notification emitted by
`DispatchDeviceChangeSignals` (`OnDeviceRemoved` / `OnDeviceAdded`). -/
inductive DeviceNotif
  | removed (d : DeviceDescriptor)
  | added (d : DeviceDescriptor)
deriving DecidableEq, Repr

/-- `std::find ( l.begin ( ), l.end ( ), d ) != l.end ( )` with
`DeviceDescriptor::operator==`. -/
def ddMem (d : DeviceDescriptor) (l : List DeviceDescriptor) : Bool :=
  l.any (fun x => ddEqB x d)

/-- `Capture::Impl::GetDevices ( refresh )` over the global
`kCaptureDevices` cache: when the cache is empty or a refresh is forced,
re-enumerate from the backend and replace the cache; otherwise return
the cache.  `backend` is the list `MFEnumDeviceSources` reports; the
result is the returned list paired with the cache afterwards. -/
def GetDevices (backend : List DeviceDescriptor) (refresh : Bool)
    (cache : List DeviceDescriptor) :
    List DeviceDescriptor × List DeviceDescriptor :=
  if cache.isEmpty || refresh then (backend, backend) else (cache, cache)

/-- The two emission loops of `DispatchDeviceChangeSignals` over a pair
of snapshots: one `OnDeviceRemoved` per previous descriptor not found in
the current list, then one `OnDeviceAdded` per current descriptor not
found in the previous list. -/
def diffEmissions (previous current : List DeviceDescriptor) :
    List DeviceNotif :=
  (previous.filter (fun p => !(ddMem p current))).map DeviceNotif.removed
    ++ (current.filter (fun c => !(ddMem c previous))).map DeviceNotif.added

/-- `AX::Video::DispatchDeviceChangeSignals`: snapshot via
`GetDevices ( )`, force a refresh via `GetDevices ( true )`, then emit
the diff.  Returns the emissions and the cache afterwards. -/
def DispatchDeviceChangeSignals (backend cache : List DeviceDescriptor) :
    List DeviceNotif × List DeviceDescriptor :=
  let p := GetDevices backend false cache
  let c := GetDevices backend true p.2
  (diffEmissions p.1 c.1, c.2)

/-- `AX::Video::FindDeviceSource`: re-enumerates the backend devices,
clears `kCaptureDevices` (and never repopulates it), and activates the
first enumerated device whose symbolic link equals the descriptor's ID.
Returns the resolved device and the cache afterwards. -/
def FindDeviceSource (backend : List DeviceDescriptor)
    (descriptor : DeviceDescriptor) (cache : List DeviceDescriptor) :
    Option DeviceDescriptor × List DeviceDescriptor :=
  let _ := cache
  (backend.find? (fun d => d.ID == descriptor.ID), [])

/-- `Capture::Impl::Impl`: after `MFCreateCaptureEngine` succeeds
(`engineOk`), resolve the device through `FindDeviceSource`; if found,
allocate the two shared textures in hardware mode (`t0`, `t1` are the
`CreateSharedTexture` results) and initialize the engine.  Returns the
member-initialized state with the construction outcome and the global
device cache afterwards. -/
def ImplConstruct (fmt : Format) (backend cache : List DeviceDescriptor)
    (engineOk : Bool) (t0 t1 : Option SharedTex) :
    ImplState × List DeviceDescriptor :=
  if engineOk = false then (mkInitState fmt none none false, cache)
  else
    match (FindDeviceSource backend fmt.device cache).1 with
    | none =>
      (mkInitState fmt none none false,
        (FindDeviceSource backend fmt.device cache).2)
    | some _ =>
      if fmt.hardwareAccelerated then
        match t0, t1 with
        | some a, some b =>
          (mkInitState fmt (some a) (some b) true,
            (FindDeviceSource backend fmt.device cache).2)
        | _, _ =>
          (mkInitState fmt t0 t1 false,
            (FindDeviceSource backend fmt.device cache).2)
      else
        (mkInitState fmt none none true,
          (FindDeviceSource backend fmt.device cache).2)

/-- The cached and device-held value of one `ControlMSW` camera
property: `_value` is the client-side cache, `deviceValue` what the
hardware currently holds. -/
structure ControlState where
  value : Int
  deviceValue : Int
deriving DecidableEq, Repr

/-- `ControlMSW::StoreValue`: `videoControl.Value = _value = value`
followed by the `KSPROPERTY_TYPE_SET` call.  The requested value is
passed through to the device unmodified; `hw` models the device's
response (its own clamping) to the written value.  The returned
`videoControl` is ignored, so the cache keeps the requested value. -/
def StoreValue (hw : Int → Int) (c : ControlState) (v : Int) : ControlState :=
  let _ := c
  { value := v, deviceValue := hw v }

/-- `ControlMSW::LoadValue`: the `KSPROPERTY_TYPE_GET` call; the
device-reported value replaces the cache and is returned. -/
def LoadValue (c : ControlState) : ControlState × Int :=
  ({ c with value := c.deviceValue }, c.deviceValue)

/-- `Control::Value ( ) const`: the cached `_value`. -/
def ValueRead (c : ControlState) : Int :=
  c.value

theorem setSurfAt_proj (s : ImplState) (i : Nat) (v : Option Surface) :
    (setSurfAt s i v).readIndex = s.readIndex
  ∧ (setSurfAt s i v).writeIndex = s.writeIndex
  ∧ (setSurfAt s i v).hasNewFrame = s.hasNewFrame
  ∧ (setSurfAt s i v).tex0 = s.tex0 ∧ (setSurfAt s i v).tex1 = s.tex1 := by
  unfold setSurfAt
  split <;> exact ⟨rfl, rfl, rfl, rfl, rfl⟩

theorem setTexAt_proj (s : ImplState) (i : Nat) (v : Option SharedTex) :
    (setTexAt s i v).readIndex = s.readIndex
  ∧ (setTexAt s i v).writeIndex = s.writeIndex
  ∧ (setTexAt s i v).hasNewFrame = s.hasNewFrame
  ∧ (setTexAt s i v).surface0 = s.surface0
  ∧ (setTexAt s i v).surface1 = s.surface1 := by
  unfold setTexAt
  split <;> exact ⟨rfl, rfl, rfl, rfl, rfl⟩

theorem surfAt_setSurfAt_other (s : ImplState) (i j : Nat) (v : Option Surface)
    (hij : (i = 0 ∧ j = 1) ∨ (i = 1 ∧ j = 0)) :
    surfAt (setSurfAt s j v) i = surfAt s i := by
  rcases hij with ⟨hi, hj⟩ | ⟨hi, hj⟩ <;> subst hi <;> subst hj <;>
    simp [surfAt, setSurfAt]

theorem texAt_setTexAt_other (s : ImplState) (i j : Nat) (v : Option SharedTex)
    (hij : (i = 0 ∧ j = 1) ∨ (i = 1 ∧ j = 0)) :
    texAt (setTexAt s j v) i = texAt s i := by
  rcases hij with ⟨hi, hj⟩ | ⟨hi, hj⟩ <;> subst hi <;> subst hj <;>
    simp [texAt, setTexAt]

theorem surfAt_setTexAt (s : ImplState) (i j : Nat) (v : Option SharedTex) :
    surfAt (setTexAt s j v) i = surfAt s i := by
  unfold setTexAt
  split <;> simp [surfAt]

theorem texAt_setSurfAt (s : ImplState) (i j : Nat) (v : Option Surface) :
    texAt (setSurfAt s j v) i = texAt s i := by
  unfold setSurfAt
  split <;> simp [texAt]

theorem swapIndices_proj (s : ImplState) :
    (swapIndices s).readIndex = s.writeIndex
  ∧ (swapIndices s).writeIndex = s.readIndex
  ∧ (swapIndices s).hasNewFrame = s.hasNewFrame
  ∧ (∀ i, surfAt (swapIndices s) i = surfAt s i)
  ∧ (∀ i, texAt (swapIndices s) i = texAt s i) := by
  refine ⟨rfl, rfl, rfl, fun i => ?_, fun i => ?_⟩ <;> simp [swapIndices, surfAt, texAt]

/-- The double-buffer index invariant: the read and the write index are
the pair `(0, 1)` in one of its two orders — both in range, never
equal. -/
def bufferInv (s : ImplState) : Prop :=
  (s.readIndex = 0 ∧ s.writeIndex = 1) ∨ (s.readIndex = 1 ∧ s.writeIndex = 0)

/-- `OnSample` either leaves both indices unchanged (a rejected or
skipped sample) or swaps them. -/
theorem onSample_indices (s : ImplState) (smp : SampleInput) :
    ((OnSample s smp).readIndex = s.readIndex
      ∧ (OnSample s smp).writeIndex = s.writeIndex)
  ∨ ((OnSample s smp).readIndex = s.writeIndex
      ∧ (OnSample s smp).writeIndex = s.readIndex) := by
  unfold OnSample
  split
  · exact Or.inl ⟨rfl, rfl⟩
  split
  · split
    · split
      · refine Or.inr ?_
        have h1 := setTexAt_proj s s.writeIndex
          ((texAt s s.writeIndex).map (fun t => { t with content := smp.texContent }))
        constructor
        · rw [(swapIndices_proj _).1, h1.2.1]
        · rw [(swapIndices_proj _).2.1, h1.1]
      · exact Or.inl ⟨rfl, rfl⟩
    · exact Or.inl ⟨rfl, rfl⟩
  · split
    · exact Or.inl ⟨rfl, rfl⟩
    split
    · exact Or.inl ⟨rfl, rfl⟩
    · refine Or.inr ?_
      have h1 := setSurfAt_proj s s.writeIndex (some
        { reallocForSample s.format (surfAt s s.writeIndex) smp.bytes.length with
          data := memcpyBytes (reallocForSample s.format (surfAt s s.writeIndex)
            smp.bytes.length).data smp.bytes })
      constructor
      · rw [(swapIndices_proj _).1, h1.2.1]
      · rw [(swapIndices_proj _).2.1, h1.1]

/-- Every state reachable through the session's operations: the
member-initialized construction outcome, sample deliveries, consumer
reads, start/stop calls, backend events and lease releases. -/
inductive Reachable : ImplState → Prop
  | constructed (fmt : Format) (t0 t1 : Option SharedTex) (valid : Bool) :
      Reachable (mkInitState fmt t0 t1 valid)
  | sample {s : ImplState} (smp : SampleInput) :
      Reachable s → Reachable (OnSample s smp)
  | readSurface {s : ImplState} :
      Reachable s → Reachable (GetSurfaceOp s).1
  | readTexture {s : ImplState} (lockOk : Bool) :
      Reachable s → Reachable (GetTextureOp s lockOk).1
  | startCall {s : ImplState} :
      Reachable s → Reachable (Start s).1
  | stopCall {s : ImplState} :
      Reachable s → Reachable (Stop s).1
  | event {s : ImplState} (e : MediaEvent) :
      Reachable s → Reachable (OnEvent s e).state
  | leaseRelease {s : ImplState} (i : Nat) :
      Reachable s → Reachable (unlockTexAt s i)

theorem getSurfaceOp_state_indices (s : ImplState) :
    (GetSurfaceOp s).1.readIndex = s.readIndex
  ∧ (GetSurfaceOp s).1.writeIndex = s.writeIndex :=
  ⟨rfl, rfl⟩

theorem getTextureOp_state_indices (s : ImplState) (lockOk : Bool) :
    (GetTextureOp s lockOk).1.readIndex = s.readIndex
  ∧ (GetTextureOp s lockOk).1.writeIndex = s.writeIndex := by
  unfold GetTextureOp
  exact ⟨(setTexAt_proj _ _ _).1, (setTexAt_proj _ _ _).2.1⟩

theorem start_state_indices (s : ImplState) :
    (Start s).1.readIndex = s.readIndex
  ∧ (Start s).1.writeIndex = s.writeIndex := by
  unfold Start
  split
  · exact ⟨rfl, rfl⟩
  split <;> exact ⟨rfl, rfl⟩

theorem stop_state_indices (s : ImplState) :
    (Stop s).1.readIndex = s.readIndex
  ∧ (Stop s).1.writeIndex = s.writeIndex := by
  unfold Stop
  split <;> exact ⟨rfl, rfl⟩

theorem onEvent_state_indices (s : ImplState) (e : MediaEvent) :
    (OnEvent s e).state.readIndex = s.readIndex
  ∧ (OnEvent s e).state.writeIndex = s.writeIndex := by
  cases e with
  | engineInitialized =>
    simp only [OnEvent]
    split
    · exact ⟨(start_state_indices _).1, (start_state_indices _).2⟩
    · exact ⟨rfl, rfl⟩
  | previewStarted => exact ⟨rfl, rfl⟩
  | previewStopped => exact ⟨rfl, rfl⟩
  | errorEvent status =>
    simp only [OnEvent]
    split <;> exact ⟨rfl, rfl⟩
  | otherEvent => exact ⟨rfl, rfl⟩

theorem unlockTexAt_indices (s : ImplState) (i : Nat) :
    (unlockTexAt s i).readIndex = s.readIndex
  ∧ (unlockTexAt s i).writeIndex = s.writeIndex := by
  unfold unlockTexAt
  exact ⟨(setTexAt_proj _ _ _).1, (setTexAt_proj _ _ _).2.1⟩

theorem reachable_bufferInv {s : ImplState} (h : Reachable s) : bufferInv s := by
  induction h with
  | constructed fmt t0 t1 valid => exact Or.inl ⟨rfl, rfl⟩
  | sample smp hr ih =>
    rcases onSample_indices _ smp with ⟨h1, h2⟩ | ⟨h1, h2⟩
    · unfold bufferInv
      rw [h1, h2]
      exact ih
    · unfold bufferInv
      rw [h1, h2]
      rcases ih with ⟨a, b⟩ | ⟨a, b⟩
      · exact Or.inr ⟨b, a⟩
      · exact Or.inl ⟨b, a⟩
  | readSurface hr ih =>
    unfold bufferInv
    rw [(getSurfaceOp_state_indices _).1, (getSurfaceOp_state_indices _).2]
    exact ih
  | readTexture lockOk hr ih =>
    unfold bufferInv
    rw [(getTextureOp_state_indices _ _).1, (getTextureOp_state_indices _ _).2]
    exact ih
  | startCall hr ih =>
    unfold bufferInv
    rw [(start_state_indices _).1, (start_state_indices _).2]
    exact ih
  | stopCall hr ih =>
    unfold bufferInv
    rw [(stop_state_indices _).1, (stop_state_indices _).2]
    exact ih
  | event e hr ih =>
    unfold bufferInv
    rw [(onEvent_state_indices _ _).1, (onEvent_state_indices _ _).2]
    exact ih
  | leaseRelease i hr ih =>
    unfold bufferInv
    rw [(unlockTexAt_indices _ _).1, (unlockTexAt_indices _ _).2]
    exact ih

theorem onSample_preserves_read_slot (s : ImplState) (smp : SampleInput)
    (hinv : bufferInv s) :
    surfAt (OnSample s smp) s.readIndex = surfAt s s.readIndex
  ∧ texAt (OnSample s smp) s.readIndex = texAt s s.readIndex := by
  have hij : (s.readIndex = 0 ∧ s.writeIndex = 1)
      ∨ (s.readIndex = 1 ∧ s.writeIndex = 0) := hinv
  unfold OnSample
  split
  · exact ⟨rfl, rfl⟩
  split
  · split
    · split
      · constructor
        · rw [(swapIndices_proj _).2.2.2.1, surfAt_setTexAt]
        · rw [(swapIndices_proj _).2.2.2.2, texAt_setTexAt_other _ _ _ _ hij]
      · exact ⟨rfl, rfl⟩
    · exact ⟨rfl, rfl⟩
  · split
    · exact ⟨rfl, rfl⟩
    split
    · exact ⟨rfl, rfl⟩
    · constructor
      · rw [(swapIndices_proj _).2.2.2.1, surfAt_setSurfAt_other _ _ _ _ hij]
      · rw [(swapIndices_proj _).2.2.2.2, texAt_setSurfAt]

theorem onSample_swaps_of_accepted (s : ImplState) (smp : SampleInput)
    (h : sampleAccepted s smp = true) :
    (OnSample s smp).readIndex = s.writeIndex
  ∧ (OnSample s smp).writeIndex = s.readIndex := by
  unfold sampleAccepted at h
  rw [Bool.and_eq_true] at h
  obtain ⟨hb, hcond⟩ := h
  unfold OnSample
  by_cases hw : s.format.hardwareAccelerated = true
  · rw [hw] at hcond
    simp only [if_pos trivial, if_true] at hcond
    rw [Bool.and_eq_true] at hcond
    obtain ⟨he, hg⟩ := hcond
    simp only [hb, hw, he, hg]
    simp only [Bool.true_eq_false, if_false, if_true]
    exact ⟨by rw [(swapIndices_proj _).1, (setTexAt_proj _ _ _).2.1],
      by rw [(swapIndices_proj _).2.1, (setTexAt_proj _ _ _).1]⟩
  · rw [Bool.not_eq_true] at hw
    rw [hw] at hcond
    simp only [Bool.false_eq_true, if_false] at hcond
    rw [Bool.and_eq_true] at hcond
    obtain ⟨hc, hl⟩ := hcond
    simp only [hb, hw, hc, hl]
    simp only [Bool.true_eq_false, Bool.false_eq_true, if_false]
    exact ⟨by rw [(swapIndices_proj _).1, (setSurfAt_proj _ _ _).2.1],
      by rw [(swapIndices_proj _).2.1, (setSurfAt_proj _ _ _).1]⟩

/-- Claim C2: in every reachable session state the read index and the
write index are each 0 or 1 and always differ; every operation
preserves this; `OnSample` never mutates the slot the read index points
at, and whenever a sample is accepted the swap exchanges exactly the
two indices. -/
theorem double_buffer_invariant (s : ImplState) (h : Reachable s) :
    ((s.readIndex = 0 ∨ s.readIndex = 1)
      ∧ (s.writeIndex = 0 ∨ s.writeIndex = 1)
      ∧ s.readIndex ≠ s.writeIndex)
  ∧ (∀ smp, surfAt (OnSample s smp) s.readIndex = surfAt s s.readIndex
      ∧ texAt (OnSample s smp) s.readIndex = texAt s s.readIndex)
  ∧ (∀ smp, sampleAccepted s smp = true →
      (OnSample s smp).readIndex = s.writeIndex
      ∧ (OnSample s smp).writeIndex = s.readIndex) := by
  have hinv := reachable_bufferInv h
  refine ⟨?_, fun smp => onSample_preserves_read_slot s smp hinv,
    fun smp ha => onSample_swaps_of_accepted s smp ha⟩
  rcases hinv with ⟨a, b⟩ | ⟨a, b⟩
  · rw [a, b]
    exact ⟨Or.inl rfl, Or.inr rfl, by decide⟩
  · rw [a, b]
    exact ⟨Or.inr rfl, Or.inl rfl, by decide⟩

/-- A concrete software-mode format: 2x2, not hardware accelerated. -/
def fmtSoftSmall : Format :=
  { defaultFormat with sizeX := 2, sizeY := 2, hardwareAccelerated := false }

/-- A concrete sample delivery with every backend call succeeding and a
four-byte payload. -/
def smpSmall : SampleInput :=
  { bufferOk := true, extractOk := true, getResourceOk := true
    texContent := 0, convertOk := true, lockOk := true
    bytes := [1, 2, 3, 4] }

/-- Witness for C2: the invariant holds at a concrete reachable state,
a freshly constructed software-mode session after one successful sample
delivery. -/
theorem double_buffer_invariant_witness :
    ((OnSample (mkInitState fmtSoftSmall none none true) smpSmall).readIndex = 0
      ∨ (OnSample (mkInitState fmtSoftSmall none none true) smpSmall).readIndex = 1)
  ∧ ((OnSample (mkInitState fmtSoftSmall none none true) smpSmall).writeIndex = 0
      ∨ (OnSample (mkInitState fmtSoftSmall none none true) smpSmall).writeIndex = 1)
  ∧ (OnSample (mkInitState fmtSoftSmall none none true) smpSmall).readIndex
      ≠ (OnSample (mkInitState fmtSoftSmall none none true) smpSmall).writeIndex :=
  (double_buffer_invariant _
    (Reachable.sample _ (Reachable.constructed _ _ _ _))).1

/-- Claim C1 (code bug): no path of `OnSample` ever stores true to
`_hasNewFrame` — the flag is only ever cleared (by the getters and the
destructor).  After a fully successful software-path delivery on a
fresh session the indices have swapped, i.e. the sample was processed,
yet `CheckNewFrame ( )` still returns false, where the claim and the
spec require it to return true until a getter clears it. -/
theorem onSample_never_sets_new_frame_flag :
    (∀ (s : ImplState) (smp : SampleInput),
      (OnSample s smp).hasNewFrame = s.hasNewFrame)
  ∧ CheckNewFrame
      (OnSample (mkInitState fmtSoftSmall none none true) smpSmall) = false
  ∧ (OnSample (mkInitState fmtSoftSmall none none true) smpSmall).readIndex = 1
  ∧ (OnSample (mkInitState fmtSoftSmall none none true) smpSmall).writeIndex = 0 := by
  refine ⟨?_, by decide, by decide, by decide⟩
  intro s smp
  unfold OnSample
  split
  · rfl
  split
  · split
    · split
      · rw [(swapIndices_proj _).2.2.1, (setTexAt_proj _ _ _).2.2.1]
      · rfl
    · rfl
  · split
    · rfl
    split
    · rfl
    · rw [(swapIndices_proj _).2.2.1, (setSurfAt_proj _ _ _).2.2.1]

/-- Claim C3: when the backend reports the device-invalidated error, in
any session state, the handler marks the session uninitialized and not
started, schedules exactly one DeviceLost notification and issues no
backend command — in particular no stop command, so no stop
confirmation can follow. -/
theorem device_invalidated_handling (s : ImplState) :
    OnEvent s (MediaEvent.errorEvent kDeviceInvalidatedStatus)
      = { state := { s with isInitialized := false, isStarted := false }
          notifs := [Notif.deviceLost], cmds := [] }
  ∧ IsStarted (OnEvent s (MediaEvent.errorEvent kDeviceInvalidatedStatus)).state
      = false
  ∧ (OnEvent s (MediaEvent.errorEvent kDeviceInvalidatedStatus)).notifs.count
      Notif.deviceLost = 1
  ∧ (OnEvent s (MediaEvent.errorEvent kDeviceInvalidatedStatus)).cmds = [] := by
  refine ⟨by simp [OnEvent], by simp [OnEvent, IsStarted], ?_, by simp [OnEvent]⟩
  simp only [OnEvent, eq_self_iff_true, if_true]
  decide

/-- Claim C4: `Start` is a no-op — same state, no backend command,
hence no later confirmation notification — unless the `isInitialized`
latch is set and the session is not already started; `Stop` is a no-op
when the session is already stopped; and both are idempotent: the
second of two consecutive calls changes nothing and issues nothing. -/
theorem start_stop_noop_idempotent (s : ImplState) :
    (s.isInitialized = false ∨ s.isStarted = true → Start s = (s, []))
  ∧ (IsStopped s = true → Stop s = (s, []))
  ∧ Start (Start s).1 = ((Start s).1, [])
  ∧ Stop (Stop s).1 = ((Stop s).1, []) := by
  refine ⟨?_, ?_, ?_, ?_⟩
  · intro h
    rcases h with h | h
    · simp [Start, h]
    · simp [Start, IsStarted, h]
  · intro h
    simp [Stop, h]
  · by_cases hi : s.isInitialized = false
    · simp [Start, hi]
    · by_cases hs : s.isStarted = true
      · simp [Start, IsStarted, hi, hs]
      · simp [Start, IsStarted, hi, hs]
  · by_cases hs : s.isStarted = false
    · simp [Stop, IsStopped, IsStarted, hs]
    · simp [Stop, IsStopped, IsStarted, hs]

/-- Witness for C4: on a freshly constructed session (latch not set,
not started) `Start` and `Stop` are both exact no-ops. -/
theorem start_stop_noop_idempotent_witness :
    Start (mkInitState fmtSoftSmall none none true)
      = (mkInitState fmtSoftSmall none none true, [])
  ∧ Stop (mkInitState fmtSoftSmall none none true)
      = (mkInitState fmtSoftSmall none none true, []) :=
  ⟨(start_stop_noop_idempotent _).1 (Or.inl rfl),
    (start_stop_noop_idempotent _).2.1 rfl⟩

/-- A valid, unlocked shared texture with a present render-side handle,
as produced by a successful `CreateSharedTexture`. -/
def texValidUnlocked : SharedTex :=
  { glTexture := some 7, content := 0, isValid := true, isLocked := false }

/-- Claim C6, counterexample.  The claim states the lease is invalid
whenever the lock attempt fails.  But `FrameLease::IsValid` is
`ToTexture ( ) != nullptr`, which ignores the lock state: constructing
a lease over a non-empty read slot with a failing lock call yields a
lease that is still valid and still yields the texture. -/
theorem lease_valid_despite_lock_failure :
    leaseIsValid (mkFrameLease (some texValidUnlocked) false) = true
  ∧ (mkFrameLease (some texValidUnlocked) false).texture
      = some { texValidUnlocked with isLocked := false }
  ∧ leaseToTexture (mkFrameLease (some texValidUnlocked) false) = some 7 := by
  decide

/-- Claim C6, amended: the lease locks the read slot's texture on
construction (its lock state becomes the lock call's result), release
invokes the unlock exactly when the texture is present and was locked
and leaves it unlocked, and the lease is invalid exactly when the read
slot is empty or its render-side handle is null — a failed lock attempt
does not invalidate the lease. -/
theorem lease_lock_lifecycle (slot : Option SharedTex) (lockOk : Bool)
    (unlockOk : Bool) :
    (mkFrameLease slot lockOk).texture
      = slot.map (fun t => { t with isLocked := lockOk })
  ∧ leaseIsValid (mkFrameLease slot lockOk)
      = (slot.bind (fun t => t.glTexture)).isSome
  ∧ (releaseFrameLease (mkFrameLease slot lockOk) unlockOk).2
      = (slot.isSome && lockOk)
  ∧ (releaseFrameLease (mkFrameLease slot lockOk) true).1
      = slot.map (fun t => { t with isLocked := false }) := by
  cases slot <;> cases lockOk <;>
    simp [mkFrameLease, sharedTexLock, leaseIsValid, leaseToTexture,
      releaseFrameLease]

/-- The hardware's response to a written control value for a device
that clamps into the range 0..50. -/
def clampResponse (v : Int) : Int :=
  max 0 (min 50 v)

/-- Claim C7, counterexample.  The claim states that after `SetValue(v)`
the cached current value equals the device-reported (possibly clamped)
value.  But `StoreValue` executes `videoControl.Value = _value = value`
and ignores the property call's output: writing 100 to a device that
clamps to 50 leaves the cache at 100 while the device holds 50, and a
subsequent `Value ( )` read returns 100. -/
theorem stored_value_not_device_value :
    ValueRead (StoreValue clampResponse { value := 10, deviceValue := 10 } 100)
      = 100
  ∧ (StoreValue clampResponse { value := 10, deviceValue := 10 } 100).deviceValue
      = 50
  ∧ ValueRead (StoreValue clampResponse { value := 10, deviceValue := 10 } 100)
      ≠ (StoreValue clampResponse { value := 10, deviceValue := 10 } 100).deviceValue := by
  decide

/-- Claim C7, amended: `SetValue(v)` passes v through to the device
with no client-side clamping and caches the requested value v itself —
not the device-reported value; the device-reported value becomes the
cached value (and the value subsequent reads return) only after a
`LoadValue` re-query. -/
theorem store_passthrough_cache_requested (hw : Int → Int) (c : ControlState)
    (v : Int) :
    (StoreValue hw c v).deviceValue = hw v
  ∧ ValueRead (StoreValue hw c v) = v
  ∧ (LoadValue (StoreValue hw c v)).2 = hw v
  ∧ ValueRead (LoadValue (StoreValue hw c v)).1 = hw v :=
  ⟨rfl, rfl, rfl, rfl⟩

/-- Claim C9 (code bug): the reallocation check in the software branch
of `OnSample` reallocates to the fixed configured-Format capacity, not
to the incoming byte length.  With Format size 2x2 (capacity
2*4*2 = 16 bytes) and an incoming sample of 17 bytes the write slot —
empty or freshly allocated alike — ends the check with capacity 16 and
a 16-byte allocation, strictly less than the incoming length, so the
following `memcpy` of 17 bytes writes past the end of the allocation. -/
theorem realloc_capacity_shortfall :
    allocatedSurfaceBytes (reallocForSample fmtSoftSmall none 17) = 16
  ∧ allocatedSurfaceBytes (reallocForSample fmtSoftSmall none 17) < 17
  ∧ allocatedSurfaceBytes
      (reallocForSample fmtSoftSmall (some (surfaceCreate fmtSoftSmall)) 17) < 17
  ∧ (reallocForSample fmtSoftSmall none 17).data.length < 17 := by
  decide

/-- Claim C10: `FindDeviceSource` clears the global device cache on
every path and never repopulates it; every constructor run that reaches
device resolution (engine creation succeeded) therefore leaves the
cache empty, so the next `GetDevices ( false )` call re-enumerates from
the backend instead of returning the pre-construction cached list. -/
theorem find_device_source_clears_cache
    (fmt : Format) (backend cache : List DeviceDescriptor) (engineOk : Bool)
    (t0 t1 : Option SharedTex) (h : engineOk = true) :
    (ImplConstruct fmt backend cache engineOk t0 t1).2 = []
  ∧ (∀ (b : List DeviceDescriptor) (d : DeviceDescriptor)
      (c : List DeviceDescriptor), (FindDeviceSource b d c).2 = [])
  ∧ (∀ b : List DeviceDescriptor, (GetDevices b false []).1 = b) := by
  subst h
  refine ⟨?_, fun b d c => rfl, fun b => rfl⟩
  unfold ImplConstruct
  rw [if_neg (by simp)]
  cases hf : (FindDeviceSource backend fmt.device cache).1 with
  | none => simp [hf, FindDeviceSource]
  | some d =>
    by_cases hw : fmt.hardwareAccelerated = true
    · cases t0 <;> cases t1 <;> simp [hf, hw, FindDeviceSource]
    · simp [hf, hw, FindDeviceSource]

/-- Witness for C10: a concrete construction over a two-entry stale
cache leaves the cache empty. -/
theorem find_device_source_clears_cache_witness :
    (ImplConstruct fmtSoftSmall [{ Name := "Cam", ID := "id1" }]
      [{ Name := "Cam", ID := "id1" }, { Name := "Old", ID := "id0" }]
      true none none).2 = [] :=
  (find_device_source_clears_cache fmtSoftSmall _ _ true none none rfl).1

theorem ddMem_iff (d : DeviceDescriptor) (l : List DeviceDescriptor) :
    ddMem d l = true ↔ d ∈ l := by
  unfold ddMem
  rw [List.any_eq_true]
  constructor
  · rintro ⟨x, hx, hxd⟩
    rw [ddEqB_iff] at hxd
    exact hxd ▸ hx
  · intro hd
    exact ⟨d, hd, (ddEqB_iff d d).2 rfl⟩

theorem removed_inj : Function.Injective DeviceNotif.removed := by
  intro a b h
  cases h
  rfl

theorem added_inj : Function.Injective DeviceNotif.added := by
  intro a b h
  cases h
  rfl

theorem count_filter_nodup (l : List DeviceDescriptor)
    (p : DeviceDescriptor → Bool) (hl : l.Nodup) (d : DeviceDescriptor) :
    (l.filter p).count d = if p d = true ∧ d ∈ l then 1 else 0 := by
  by_cases hp : p d = true
  · by_cases hd : d ∈ l
    · rw [if_pos ⟨hp, hd⟩]
      exact List.count_eq_one_of_mem (hl.filter p) (List.mem_filter.2 ⟨hd, hp⟩)
    · rw [if_neg (fun h => hd h.2)]
      exact List.count_eq_zero_of_not_mem (fun h => hd (List.mem_filter.1 h).1)
  · rw [if_neg (fun h => hp h.1)]
    exact List.count_eq_zero_of_not_mem (fun h => hp (List.mem_filter.1 h).2)

/-- Claim C5: for every pair of duplicate-free snapshots the diff loops
emit exactly one removed(d) per descriptor present only in the old
snapshot, exactly one added(d) per descriptor present only in the new
one, and none for descriptors in both or neither; and
`DispatchDeviceChangeSignals` applies them to the cached snapshot
(re-enumerated when the cache is empty) against the forced refresh,
leaving the refreshed list cached. -/
theorem dispatch_device_change_counts
    (previous current : List DeviceDescriptor)
    (hp : previous.Nodup) (hc : current.Nodup) (d : DeviceDescriptor) :
    ((diffEmissions previous current).count (DeviceNotif.removed d)
      = if d ∈ previous ∧ d ∉ current then 1 else 0)
  ∧ ((diffEmissions previous current).count (DeviceNotif.added d)
      = if d ∈ current ∧ d ∉ previous then 1 else 0)
  ∧ (∀ backend cache : List DeviceDescriptor,
      DispatchDeviceChangeSignals backend cache
        = (diffEmissions (if cache.isEmpty then backend else cache) backend,
            backend)) := by
  refine ⟨?_, ?_, ?_⟩
  · unfold diffEmissions
    rw [List.count_append]
    have h2 : ((current.filter (fun c => !(ddMem c previous))).map
        DeviceNotif.added).count (DeviceNotif.removed d) = 0 :=
      List.count_eq_zero_of_not_mem (by simp)
    rw [h2, Nat.add_zero, List.count_map_of_injective _ _ removed_inj,
      count_filter_nodup _ _ hp d]
    by_cases h2m : d ∈ current
    · have hm : ddMem d current = true := (ddMem_iff _ _).2 h2m
      simp [hm, h2m]
    · have hm : ddMem d current = false := by
        rw [Bool.eq_false_iff]
        intro hh
        exact h2m ((ddMem_iff _ _).1 hh)
      simp [hm, h2m]
  · unfold diffEmissions
    rw [List.count_append]
    have h2 : ((previous.filter (fun p => !(ddMem p current))).map
        DeviceNotif.removed).count (DeviceNotif.added d) = 0 :=
      List.count_eq_zero_of_not_mem (by simp)
    rw [h2, Nat.zero_add, List.count_map_of_injective _ _ added_inj,
      count_filter_nodup _ _ hc d]
    by_cases h2m : d ∈ previous
    · have hm : ddMem d previous = true := (ddMem_iff _ _).2 h2m
      simp [hm, h2m]
    · have hm : ddMem d previous = false := by
        rw [Bool.eq_false_iff]
        intro hh
        exact h2m ((ddMem_iff _ _).1 hh)
      simp [hm, h2m]
  · intro backend cache
    by_cases hce : cache.isEmpty
    · simp [DispatchDeviceChangeSignals, GetDevices, hce]
    · simp [DispatchDeviceChangeSignals, GetDevices, hce]

/-- Concrete descriptor A for the diff scenario. -/
def dA : DeviceDescriptor := { Name := "Cam A", ID := "a" }

/-- Concrete descriptor B for the diff scenario. -/
def dB : DeviceDescriptor := { Name := "Cam B", ID := "b" }

/-- Concrete descriptor C for the diff scenario. -/
def dC : DeviceDescriptor := { Name := "Cam C", ID := "c" }

/-- Witness for C5: on old snapshot [A, B] and new snapshot [B, C] the
emissions are exactly one removed(A) and one added(C), and nothing for
B (or anything else). -/
theorem dispatch_device_change_counts_witness :
    ((diffEmissions [dA, dB] [dB, dC]).count (DeviceNotif.removed dA) = 1)
  ∧ ((diffEmissions [dA, dB] [dB, dC]).count (DeviceNotif.added dC) = 1)
  ∧ ((diffEmissions [dA, dB] [dB, dC]).count (DeviceNotif.removed dB) = 0)
  ∧ ((diffEmissions [dA, dB] [dB, dC]).count (DeviceNotif.added dB) = 0)
  ∧ ((diffEmissions [dA, dB] [dB, dC]).count (DeviceNotif.added dA) = 0)
  ∧ ((diffEmissions [dA, dB] [dB, dC]).count (DeviceNotif.removed dC) = 0) := by
  have hA := dispatch_device_change_counts [dA, dB] [dB, dC]
    (by decide) (by decide) dA
  have hB := dispatch_device_change_counts [dA, dB] [dB, dC]
    (by decide) (by decide) dB
  have hC := dispatch_device_change_counts [dA, dB] [dB, dC]
    (by decide) (by decide) dC
  refine ⟨?_, ?_, ?_, ?_, ?_, ?_⟩
  · rw [hA.1]
    decide
  · rw [hC.2.1]
    decide
  · rw [hB.1]
    decide
  · rw [hB.2.1]
    decide
  · rw [hA.2.1]
    decide
  · rw [hC.1]
    decide

end AXVideo
